import Mathlib

/-!
Verification of the libminer client library: a shallow embedding of the
detection engine, failure-merge logic, per-instance lazy caches, the
Whatsminer session-token machinery, and the log-based error classifier,
with theorems checking the natural-language specification against the code.

Conventions of the embedding:
* Rust `Result<T, Error>` becomes `Except Error T`.
* Network effects (HTTP requests, socket round trips) become explicit
  parameters holding the outcome the network would have produced, and each
  operation additionally returns the number of round trips it performed.
* Foreign error payloads (reqwest, io, serde_json, ...) are represented by
  the string their `Display` implementation would render, since the library
  only ever formats them into messages.
* Rust f64 quantities are modelled as rationals; no claim below depends on
  floating-point rounding.
-/

namespace Libminer

/-- The library error enum from `src/error.rs`.  Variants carrying foreign
errors carry that error's rendered text. -/
inductive Error where
  | RequestError (s : String)
  | IoError (s : String)
  | ParseError (s : String)
  | DigestAuthError (s : String)
  | ToStrError
  | SemaphoreError
  | AvalonDeserializerError
  | NoHostDetected
  | UnknownMinerType (s : String)
  | NoMinerDetected
  | EncodingError
  | Timeout
  | ConnectionRefused
  | HttpRequestFailed
  | TokenExpired
  | Unauthorized
  | ApiCallFailed (s : String)
  | ExpectedReturn
  | NotSupported
  | InvalidResponse
  | UnknownModel (s : String)
  deriving DecidableEq, Repr

/-- `Display` for `Error`, from the `#[error("...")]` attributes in
`src/error.rs`. -/
def Error.display : Error → String
  | .RequestError s => "Reqwest error " ++ s
  | .IoError s => "Io error " ++ s
  | .ParseError s => "Json error " ++ s
  | .DigestAuthError s => "Digest auth error " ++ s
  | .ToStrError => "ToStr error"
  | .SemaphoreError => "Failed to acquire semaphore"
  | .AvalonDeserializerError => "Avalon deserializer error"
  | .NoHostDetected => "No host detected"
  | .UnknownMinerType s => "Unknown miner type " ++ s
  | .NoMinerDetected => "No miner detected"
  | .EncodingError => "Encode error"
  | .Timeout => "Timeout"
  | .ConnectionRefused => "Connection refused"
  | .HttpRequestFailed => "Failed to execute HTTP request"
  | .TokenExpired => "Token expired"
  | .Unauthorized => "Unauthorized"
  | .ApiCallFailed s => "API Call failed: " ++ s
  | .ExpectedReturn => "Expected return"
  | .NotSupported => "Not supported"
  | .InvalidResponse => "Invalid response"
  | .UnknownModel s => "Unknown model " ++ s

/-- The failure-merge match from `Client::get_miner`
(`src/lib.rs:389-398`), applied when both the HTTP probe and the socket
probe failed.  The first component is the HTTP error, the second the
socket error; arms are listed in source order and, as in Rust, the first
matching arm wins. -/
def mergeErrors (e e2 : Error) : Error :=
  match e, e2 with
  | .Timeout, .Timeout => .Timeout
  | .Timeout, e2 => e2
  | e, .Timeout => e
  | .NoMinerDetected, .NoMinerDetected => .NoMinerDetected
  | .UnknownMinerType s, .UnknownMinerType s2 => .UnknownMinerType (s ++ " and " ++ s2)
  | .UnknownMinerType s, e2 => .UnknownMinerType (s ++ " and " ++ e2.display)
  | e, .UnknownMinerType s => .UnknownMinerType (e.display ++ " and " ++ s)
  | .NoMinerDetected, e2 => .UnknownMinerType ("No miner detected and " ++ e2.display)
  | e, _ => e

/-- The probe orchestration of `Client::get_miner` (`src/lib.rs:381-404`).
`http` and `socket` are the outcomes the two probes would produce for this
host; the result records the value returned together with how many HTTP
probes and how many socket probes were actually run (the socket probe is
only reached in the error branch of the HTTP probe). -/
def getMinerDetect {α : Type} (http socket : Except Error α) :
    Except Error α × Nat × Nat :=
  match http with
  | .ok m => (.ok m, 1, 0)
  | .error e =>
    match socket with
    | .ok m => (.ok m, 1, 1)
    | .error e2 => (.error (mergeErrors e e2), 1, 1)

/-- An HTTP response as the backends observe it: a status code plus the
outcome of deserializing the body (`resp.json()`). -/
structure HttpResp (β : Type) where
  status : Nat
  body : Except Error β

/-- `reqwest::StatusCode::is_success`: the 2xx range. -/
def statusIsSuccess (n : Nat) : Bool := 200 ≤ n && n < 300

/-- The cached-accessor body shared by `Antminer::sys_info`, `summary`,
`miner_conf` and `stats` (`src/src/miners/antminer/antminer.rs:48-118`):
lock the slot; if empty, perform the digest-auth GET, map a non-success
status to `Unauthorized` (401) or `HttpRequestFailed`, otherwise store the
parsed body.  `fetch` is the outcome the network would produce; the third
component counts how many fetches were issued. -/
def antminerCgiGet {β : Type} (slot : Option β)
    (fetch : Except Error (HttpResp β)) :
    Except Error β × Option β × Nat :=
  match slot with
  | some v => (.ok v, some v, 0)
  | none =>
    match fetch with
    | .error e => (.error e, none, 1)
    | .ok resp =>
      if !statusIsSuccess resp.status then
        if resp.status = 401 then (.error .Unauthorized, none, 1)
        else (.error .HttpRequestFailed, none, 1)
      else
        match resp.body with
        | .ok v => (.ok v, some v, 1)
        | .error e => (.error e, none, 1)

/-- The four per-instance cache slots of an `Antminer` handle
(`src/src/miners/antminer/antminer.rs:41-44`); the payload types are
abstracted since no claim depends on their fields. -/
structure AntminerSlots (si su mc st : Type) where
  sys_info : Option si
  summary : Option su
  miner_conf : Option mc
  stats : Option st

/-- `Antminer::invalidate` (`src/src/miners/antminer/antminer.rs:120-125`):
empty the summary, miner_conf and stats slots; sys_info is not touched. -/
def Antminer.invalidate {si su mc st : Type} (s : AntminerSlots si su mc st) :
    AntminerSlots si su mc st :=
  { s with summary := none, miner_conf := none, stats := none }

/-- `Antminer::set_pools` (`src/src/miners/antminer/antminer.rs:273-291`):
read the current miner_conf through its cached accessor (which may fetch
and populate that slot), POST the new configuration, and on a success
status invalidate; on any failure the slots other than the possibly
freshly populated miner_conf are left as they were. -/
def Antminer.set_pools {si su mc st : Type} (s : AntminerSlots si su mc st)
    (confFetch : Except Error (HttpResp mc))
    (post : Except Error (HttpResp Unit)) :
    Except Error Unit × AntminerSlots si su mc st :=
  match antminerCgiGet s.miner_conf confFetch with
  | (.error e, slot, _) => (.error e, { s with miner_conf := slot })
  | (.ok _, slot, _) =>
    let s := { s with miner_conf := slot }
    match post with
    | .error e => (.error e, s)
    | .ok resp =>
      if statusIsSuccess resp.status then (.ok (), Antminer.invalidate s)
      else (.error .HttpRequestFailed, s)

/-- `Antminer::set_sleep` (`src/src/miners/antminer/antminer.rs:300-314`):
POST the new miner-mode and on a success status invalidate. -/
def Antminer.set_sleep {si su mc st : Type} (s : AntminerSlots si su mc st)
    (_sleep : Bool) (post : Except Error (HttpResp Unit)) :
    Except Error Unit × AntminerSlots si su mc st :=
  match post with
  | .error e => (.error e, s)
  | .ok resp =>
    if statusIsSuccess resp.status then (.ok (), Antminer.invalidate s)
    else (.error .HttpRequestFailed, s)

/-- `Antminer::reboot` (`src/src/miners/antminer/antminer.rs:163-175`):
the miner reboots before responding, so a failed request is the success
outcome (and invalidates the caches) while a completed response is
reported as `ApiCallFailed "Reboot failed"`. -/
def Antminer.reboot {si su mc st : Type} (s : AntminerSlots si su mc st)
    (resp : Except Error (HttpResp Unit)) :
    Except Error Unit × AntminerSlots si su mc st :=
  match resp with
  | .error _ => (.ok (), Antminer.invalidate s)
  | .ok _ => (.error (.ApiCallFailed "Reboot failed"), s)

/-- Modelled from the spec: the cgminer status-code enumeration
`{success, error, info, warning}` (the `common::StatusCode` definition is
not among the provided sources; `src/lib.rs` and the Whatsminer backend
use its `SUCC` and `ERROR` members). -/
inductive StatusCode where
  | SUCC
  | ERROR
  | INFO
  | WARN
  deriving DecidableEq, Repr

/-- The Whatsminer status envelope (`wmapi::Status`,
`src/src/miners/whatsminer/wmapi/status.rs`), restricted to the fields the
backend reads. -/
structure WmStatus where
  status : StatusCode
  msg : String

/-- `Whatsminer::get_summary`
(`src/src/miners/whatsminer/whatsminer.rs:141-154`): lock the summary
slot; if empty, issue the `summary` socket command; a response parsing as
an error envelope becomes `ApiCallFailed`, otherwise the parsed summary is
stored.  `parseStatus` and `parseSummary` stand for the two
`serde_json::from_str` attempts; the third component counts socket
round trips. -/
def Whatsminer.get_summary {σ : Type} (slot : Option σ)
    (fetch : Except Error String)
    (parseStatus : String → Option WmStatus)
    (parseSummary : String → Except Error σ) :
    Except Error σ × Option σ × Nat :=
  match slot with
  | some v => (.ok v, some v, 0)
  | none =>
    match fetch with
    | .error e => (.error e, none, 1)
    | .ok resp =>
      match parseStatus resp with
      | some st => (.error (.ApiCallFailed st.msg), none, 1)
      | none =>
        match parseSummary resp with
        | .ok v => (.ok v, some v, 1)
        | .error e => (.error e, none, 1)

/-- Modelled from the spec: the Whatsminer session token
(`wmapi::WhatsminerToken`, whose module is not among the provided
sources).  Per §3 a Token is a value plus an expiry instant; instants are
modelled as integer timestamps. -/
structure WhatsminerToken where
  value : String
  expires : Int
  deriving DecidableEq, Repr

/-- Modelled from the spec: `WhatsminerToken::is_expired`; a token is
reused while `expiry > now`, so it is expired iff `expires ≤ now`. -/
def WhatsminerToken.is_expired (t : WhatsminerToken) (now : Int) : Bool :=
  t.expires ≤ now

/-- Modelled from the spec: the cleartext `get_token` server response
(`wmapi::TokenResponse`, not among the provided sources); the backend only
feeds it to the key-derivation step, so its payload is kept abstract as
the raw text. -/
structure TokenResponse where
  raw : String

/-- `CacheItem` from `src/lib.rs:31-35`: a serialized token plus its
expiry, stored in the host-keyed token cache. -/
structure CacheItem where
  token : String
  token_expires : Int
  deriving DecidableEq, Repr

/-- The host-keyed token cache `Cache = HashMap<String, CacheItem>` from
`src/lib.rs:37`, modelled as an association list whose lookup takes the
first (most recent) binding. -/
def TokenCache := List (String × CacheItem)

/-- `HashMap::get`. -/
def cacheGet (c : TokenCache) (k : String) : Option CacheItem :=
  match c with
  | [] => none
  | (k2, v) :: rest => if k2 = k then some v else cacheGet rest k

/-- `HashMap::insert`: bind `k` to `v`, dropping any previous binding. -/
def cacheInsert (c : TokenCache) (k : String) (v : CacheItem) : TokenCache :=
  (k, v) :: List.filter (fun p => !(p.1 = k : Bool)) c

/-- The session/token-relevant state of a `Whatsminer` handle
(`src/src/miners/whatsminer/whatsminer.rs:48-58`): host ip, optional
password, optional current token, and the optional shared cross-instance
token cache. -/
structure WmState where
  ip : String
  password : Option String
  token : Option WhatsminerToken
  cache : Option TokenCache

/-- The pure environment threaded through the token operations: outcomes
of I/O and of the serde/key-derivation steps that live outside the
provided sources.  `tokenRoundTrip` is the result the `get_token` socket
exchange would produce, `parseTokenResp` the `serde_json::from_str`
on it, `makeToken` the key-derivation (`TokenResponse::make_token`,
modelled from the spec as producing a fresh token or failing), `ser` the
`serde_json::to_string` of a token, and `de` the `serde_json::from_str`
of a stored token string. -/
structure WmEnv where
  tokenRoundTrip : Except Error String
  parseTokenResp : String → Except Error TokenResponse
  makeToken : TokenResponse → String → Option WhatsminerToken
  ser : WhatsminerToken → String
  de : String → Except Error (Option WhatsminerToken)

/-- `Whatsminer::refresh_token`
(`src/src/miners/whatsminer/whatsminer.rs:72-101`): with no password fail
`Unauthorized` without touching the network; otherwise run the `get_token`
round trip, parse it, derive the token, store it on the handle and, when a
shared cache is attached, insert the serialized token under this host.
The final component counts `get_token` round trips (the handshake). -/
def Whatsminer.refresh_token (st : WmState) (env : WmEnv) :
    Except Error Unit × WmState × Nat :=
  match st.password with
  | none => (.error .Unauthorized, st, 0)
  | some passwd =>
    match env.tokenRoundTrip with
    | .error e => (.error e, st, 1)
    | .ok resp =>
      match env.parseTokenResp resp with
      | .error e => (.error e, st, 1)
      | .ok tokenResp =>
        match env.makeToken tokenResp passwd with
        | none => (.error (.ApiCallFailed "Failed to make token"), st, 1)
        | some tok =>
          let st := { st with token := some tok }
          match st.cache with
          | none => (.ok (), st, 1)
          | some c =>
            (.ok (),
             { st with cache := some (cacheInsert c st.ip
                 { token := env.ser tok, token_expires := tok.expires }) },
             1)

/-- `Whatsminer::token_cached`
(`src/src/miners/whatsminer/whatsminer.rs:103-118`): when the handle has
no token and the shared cache holds an entry for this host whose expiry is
strictly in the future, adopt its deserialized token and return without
any handshake; in every other case fall through to `refresh_token`. -/
def Whatsminer.token_cached (st : WmState) (now : Int) (env : WmEnv) :
    Except Error Unit × WmState × Nat :=
  match st.token with
  | none =>
    match st.cache with
    | some c =>
      match cacheGet c st.ip with
      | some item =>
        if now < item.token_expires then
          match env.de item.token with
          | .error e => (.error e, st, 0)
          | .ok t => (.ok (), { st with token := t }, 0)
        else Whatsminer.refresh_token st env
      | none => Whatsminer.refresh_token st env
    | none => Whatsminer.refresh_token st env
  | some _ => Whatsminer.refresh_token st env

/-- `Whatsminer::send_recv_enc`
(`src/src/miners/whatsminer/whatsminer.rs:120-139`): with no token fail
`Unauthorized`; with an expired token perform exactly one refresh before
the encrypted command; then send the encrypted payload and decrypt the
response.  `encResp` is the outcome the encrypted command's socket
exchange would produce, `parseJson` the `serde_json::from_str` on the raw
response (its failure is reported as `ApiCallFailed "Failed to parse
JSON"`), and `decrypt` the token-keyed decryption.  The final component
counts handshake (`get_token`) round trips. -/
def Whatsminer.send_recv_enc (st : WmState) (now : Int) (env : WmEnv)
    (encResp : Except Error String)
    (parseJson : String → Option String)
    (decrypt : WhatsminerToken → String → Except Error String) :
    Except Error String × WmState × Nat :=
  match st.token with
  | none => (.error .Unauthorized, st, 0)
  | some tok =>
    let refreshed :=
      if tok.is_expired now then
        match Whatsminer.refresh_token st env with
        | (.error e, st2, n) => (some e, st2, n)
        | (.ok _, st2, n) => (none, st2, n)
      else (none, st, 0)
    match refreshed with
    | (some e, st2, n) => (.error e, st2, n)
    | (none, st2, n) =>
      match st2.token with
      | none => (.error .Unauthorized, st2, n)
      | some tok2 =>
        (match encResp with
         | .error e => .error e
         | .ok resp =>
           match parseJson resp with
           | none => .error (.ApiCallFailed "Failed to parse JSON")
           | some js =>
             match decrypt tok2 js with
             | .error e => .error e
             | .ok dec => .ok dec,
         st2, n)

/-- `Whatsminer::reboot`
(`src/src/miners/whatsminer/whatsminer.rs:221-227`): send the encrypted
`reboot` command and propagate its error with `?`; no special success
handling for dropped connections. -/
def Whatsminer.reboot (st : WmState) (now : Int) (env : WmEnv)
    (encResp : Except Error String)
    (parseJson : String → Option String)
    (decrypt : WhatsminerToken → String → Except Error String) :
    Except Error Unit × WmState :=
  match Whatsminer.send_recv_enc st now env encResp parseJson decrypt with
  | (.error e, st2, _) => (.error e, st2)
  | (.ok _, st2, _) => (.ok (), st2)

/-- `Whatsminer::set_sleep`
(`src/src/miners/whatsminer/whatsminer.rs:365-396`), with the outcome of
the encrypted `power_off`/`power_on` exchange supplied as `resp` and the
`serde_json::from_str::<wmapi::Status>` step as `parseStat`; the second
component is the summary cache slot (invalidated only on an acknowledged
success). -/
def Whatsminer.set_sleep {σ : Type} (sleep : Bool) (slot : Option σ)
    (resp : Except Error String)
    (parseStat : String → Except Error WmStatus) :
    Except Error Unit × Option σ :=
  match sleep, resp with
  | true, .error e =>
    match e with
    | .Timeout => (.ok (), slot)
    | e => (.error e, slot)
  | _, .ok r =>
    match parseStat r with
    | .error e => (.error e, slot)
    | .ok stat =>
      if stat.status = StatusCode.SUCC then (.ok (), none)
      else (.error (.ApiCallFailed stat.msg), slot)
  | _, .error e => (.error e, slot)

/-- `ErrorType` from `src/src/miner.rs:27-36`. -/
inductive ErrorType where
  | ControlBoard
  | HashBoard
  | Fan
  | Temperature
  | Power
  | Network
  | Config
  | Other
  deriving DecidableEq, Repr

/-- `MinerError` from `src/src/miner.rs:74-77`; equality (and hence
deduplication) is structural on message and category, matching the
derived `PartialEq`/`Hash`. -/
structure MinerError where
  msg : String
  error_type : ErrorType
  deriving DecidableEq, Repr

/-- `HashSet::insert` on the accumulated classification set: adding an
element already present leaves the set unchanged. -/
def insertErr (e : MinerError) (s : List MinerError) : List MinerError :=
  if e ∈ s then s else e :: s

/-- The matcher compiled from the `VNISH_ERRORS` rule
`chain#(\d) - [Cc]hain break detected` (`src/src/miners/vnish/error.rs:21-25`)
tested at the head of the text: on a match it yields the single captured
digit.  The match consumes 30 characters. -/
def chainBreakMatchAt : List Char → Option Char
  | 'c' :: 'h' :: 'a' :: 'i' :: 'n' :: '#' :: d :: ' ' :: '-' :: ' ' :: c0 ::
    'h' :: 'a' :: 'i' :: 'n' :: ' ' :: 'b' :: 'r' :: 'e' :: 'a' :: 'k' :: ' ' ::
    'd' :: 'e' :: 't' :: 'e' :: 'c' :: 't' :: 'e' :: 'd' :: _ =>
    if d.isDigit && (c0 = 'C' || c0 = 'c') then some d else none
  | _ => none

/-- `Regex::find`/`captures` for the chain-break rule: the leftmost match,
as start offset plus captured digit (the match ends at `start + 30`). -/
def chainBreakFind : List Char → Option (Nat × Char)
  | [] => none
  | l@(_ :: rest) =>
    match chainBreakMatchAt l with
    | some d => some (0, d)
    | none => (chainBreakFind rest).map (fun p => (p.1 + 1, p.2))

/-- The message template `Chain {} - Chain break detected` of that rule
with its one capture substituted positionally
(`IntMinerError::get_msg`, `src/src/miner.rs:46-59`). -/
def renderChainBreak (d : Char) : MinerError :=
  { msg := "Chain " ++ String.singleton d ++ " - Chain break detected",
    error_type := ErrorType.HashBoard }

/-- The per-rule `while let` loop of `Vnish::get_errors`
(`src/src/miners/vnish/mod.rs:424-432`) instantiated at the chain-break
rule: repeatedly take the leftmost match, insert its rendered error into
the set, and continue after the match end.  The loop is written with an
iteration budget so that it is structurally recursive: every match
consumes at least 30 characters, so a budget of the text length (as used
by `collectChainBreak`) never runs out before the remaining text does. -/
def collectChainBreakAux : Nat → List Char → List MinerError → List MinerError
  | 0, _, acc => acc
  | fuel + 1, l, acc =>
    match chainBreakFind l with
    | none => acc
    | some (s, d) =>
      collectChainBreakAux fuel (l.drop (s + 30)) (insertErr (renderChainBreak d) acc)

/-- The chain-break match loop run with its sufficient budget. -/
def collectChainBreak (l : List Char) (acc : List MinerError) : List MinerError :=
  collectChainBreakAux l.length l acc

/-- `re.find_iter(text).last().map(start)`: the start offset of the last
occurrence of the literal `pat` in the text, if any. -/
def markerLastStart (pat : List Char) : List Char → Option Nat
  | [] => none
  | l@(_ :: rest) =>
    match markerLastStart pat rest with
    | some i => some (i + 1)
    | none => if pat.isPrefixOf l then some 0 else none

/-- The "since last start" boot marker of `Vnish::get_errors`
(`src/src/miners/vnish/mod.rs:419`). -/
def vnishBootMarker : List Char := "INFO: Initializing PSU".toList

/-- `Vnish::get_errors` (`src/src/miners/vnish/mod.rs:417-434`) restricted
to the chain-break rule of its table: discard everything before the last
boot marker (keeping everything if there is none), then run the match
loop into a fresh set. -/
def Vnish.get_errors (log : List Char) : List MinerError :=
  let start := (markerLastStart vnishBootMarker log).getD 0
  collectChainBreak (log.drop start) []

/-- The fields of one entry of the Antminer `stats.cgi` chain list that
`Antminer::get_errors` reads; the f64 rates are modelled as rationals. -/
structure AmChain where
  index : Nat
  rate_ideal : ℚ
  rate_real : ℚ

/-- The fields of the first `stats.cgi` stats item that
`Antminer::get_errors` reads. -/
structure AmStats where
  chain_num : Nat
  chain : List AmChain

/-- The "since last boot" marker of `Antminer::get_errors`
(`src/src/miners/antminer/antminer.rs:366`). -/
def antminerBootMarker : List Char := "=capability start=".toList

/-- `Antminer::get_errors` (`src/src/miners/antminer/antminer.rs:363-389`):
window the joined logs at the last boot marker, insert the structural
checks (missing boards when fewer than 3 chains; low hashrate below 90%
of ideal per chain) into the set, then insert at most one rendered error
per rule of `ANTMINER_ERRORS`; the rule table is abstracted as one
first-match renderer per rule. -/
def Antminer.get_errors (log : List Char) (stats : Option AmStats)
    (rules : List (List Char → Option MinerError)) : List MinerError :=
  let start := (markerLastStart antminerBootMarker log).getD 0
  let l := log.drop start
  let errs : List MinerError := []
  let errs :=
    match stats with
    | none => errs
    | some stat =>
      let errs :=
        if stat.chain_num < 3 then
          insertErr { msg := "Missing Board(s)", error_type := ErrorType.HashBoard } errs
        else errs
      stat.chain.foldl (fun acc c =>
        if c.rate_real < c.rate_ideal * (9 / 10) then
          insertErr { msg := "Chain " ++ toString c.index ++ " - Low Hashrate",
                      error_type := ErrorType.HashBoard } acc
        else acc) errs
  rules.foldl (fun acc r =>
    match r l with
    | some m => insertErr m acc
    | none => acc) errs

/-! ## Theorems -/

/-- C1 counterexample: the spec's merge table says the pair
`(NoMinerDetected, NoMinerDetected)` yields
`UnknownType("No miner detected and " + socketError)`, but the match arm
`(Error::NoMinerDetected, Error::NoMinerDetected)` in `get_miner` fires
first and returns `NoMinerDetected`. -/
theorem C1_merge_nmd_nmd_counterexample :
    mergeErrors Error.NoMinerDetected Error.NoMinerDetected
      = Error.NoMinerDetected ∧
    mergeErrors Error.NoMinerDetected Error.NoMinerDetected
      ≠ Error.UnknownMinerType ("No miner detected and " ++
          Error.display Error.NoMinerDetected) := by
  decide

/-- C1 (amended): when both probes fail, the merged error follows the
source match-arm order: `(Timeout, Timeout)` gives `Timeout`;
`(Timeout, other)` the socket error verbatim; `(other, Timeout)` the http
error verbatim; `(NoMinerDetected, NoMinerDetected)` gives
`NoMinerDetected`; `(NoMinerDetected, UnknownType(s2))` gives
`UnknownType("No miner detected" + " and " + s2)`;
`(NoMinerDetected, other)` gives
`UnknownType("No miner detected and " + socketError)`;
`(UnknownType(s1), NoMinerDetected)` gives
`UnknownType(s1 + " and " + "No miner detected")`; and
`(UnknownType(s1), UnknownType(s2))` gives
`UnknownType(s1 + " and " + s2)`.  Here `other` is any error that is not
`Timeout`, `NoMinerDetected` or `UnknownType`. -/
theorem C1_merge_table (s1 s2 : String) (e : Error)
    (hT : e ≠ Error.Timeout) (hN : e ≠ Error.NoMinerDetected)
    (hU : ∀ s, e ≠ Error.UnknownMinerType s) :
    mergeErrors Error.Timeout Error.Timeout = Error.Timeout ∧
    mergeErrors Error.Timeout e = e ∧
    mergeErrors e Error.Timeout = e ∧
    mergeErrors Error.NoMinerDetected Error.NoMinerDetected
      = Error.NoMinerDetected ∧
    mergeErrors Error.NoMinerDetected (Error.UnknownMinerType s2)
      = Error.UnknownMinerType ("No miner detected" ++ " and " ++ s2) ∧
    mergeErrors Error.NoMinerDetected e
      = Error.UnknownMinerType ("No miner detected and " ++ e.display) ∧
    mergeErrors (Error.UnknownMinerType s1) Error.NoMinerDetected
      = Error.UnknownMinerType (s1 ++ " and " ++ "No miner detected") ∧
    mergeErrors (Error.UnknownMinerType s1) (Error.UnknownMinerType s2)
      = Error.UnknownMinerType (s1 ++ " and " ++ s2) := by
  cases e <;>
    first
      | exact absurd rfl hT
      | exact absurd rfl hN
      | exact absurd rfl (hU _)
      | exact ⟨rfl, rfl, rfl, rfl, rfl, rfl, rfl, rfl⟩

/-- Witness for C1's amended table at `s1 = "a"`, `s2 = "b"`,
`other = Unauthorized`. -/
theorem C1_merge_table_witness :
    mergeErrors Error.Timeout Error.Timeout = Error.Timeout ∧
    mergeErrors Error.Timeout Error.Unauthorized = Error.Unauthorized ∧
    mergeErrors Error.Unauthorized Error.Timeout = Error.Unauthorized ∧
    mergeErrors Error.NoMinerDetected Error.NoMinerDetected
      = Error.NoMinerDetected ∧
    mergeErrors Error.NoMinerDetected (Error.UnknownMinerType "b")
      = Error.UnknownMinerType ("No miner detected" ++ " and " ++ "b") ∧
    mergeErrors Error.NoMinerDetected Error.Unauthorized
      = Error.UnknownMinerType
          ("No miner detected and " ++ Error.display Error.Unauthorized) ∧
    mergeErrors (Error.UnknownMinerType "a") Error.NoMinerDetected
      = Error.UnknownMinerType ("a" ++ " and " ++ "No miner detected") ∧
    mergeErrors (Error.UnknownMinerType "a") (Error.UnknownMinerType "b")
      = Error.UnknownMinerType ("a" ++ " and " ++ "b") :=
  C1_merge_table "a" "b" Error.Unauthorized (by decide) (by decide)
    (fun _ h => nomatch h)

/-- C2: detection always runs the HTTP probe exactly once; if the HTTP
probe succeeds its result is returned and no socket probe is run, and the
socket probe runs exactly once whenever the HTTP probe failed — the same
fixed order for every input. -/
theorem C2_detect_order {α : Type} (http socket : Except Error α) :
    (getMinerDetect http socket).2.1 = 1 ∧
    (∀ m, http = Except.ok m →
      getMinerDetect http socket = (Except.ok m, 1, 0)) ∧
    (∀ e, http = Except.error e →
      (getMinerDetect http socket).2.2 = 1) := by
  refine ⟨?_, ?_, ?_⟩
  · cases http with
    | ok m => rfl
    | error e => cases socket <;> rfl
  · intro m hm
    subst hm
    rfl
  · intro e he
    subst he
    cases socket <;> rfl

/-- Witness for C2 at concrete probe outcomes. -/
theorem C2_detect_order_witness :
    (getMinerDetect (Except.ok 0 : Except Error Nat)
        (Except.error Error.Timeout)).2.1 = 1 ∧
    getMinerDetect (Except.ok 0 : Except Error Nat)
        (Except.error Error.Timeout) = (Except.ok 0, 1, 0) ∧
    (getMinerDetect (Except.error Error.Timeout : Except Error Nat)
        (Except.error Error.Timeout)).2.2 = 1 :=
  ⟨(C2_detect_order (Except.ok 0) (Except.error Error.Timeout)).1,
   (C2_detect_order (Except.ok 0) (Except.error Error.Timeout)).2.1 0 rfl,
   (C2_detect_order (Except.error Error.Timeout)
      (Except.error Error.Timeout)).2.2 Error.Timeout rfl⟩

/-- C3 counterexample: the claim says every vendor backend treats a
connection failure right after the reboot command as success, but the
Whatsminer backend propagates such a failure: with a fresh unexpired
token, a timed-out encrypted `reboot` exchange returns the timeout
error, not `Ok`. -/
theorem C3_whatsminer_reboot_counterexample :
    (Whatsminer.reboot
        { ip := "host", password := some "pw",
          token := some { value := "tok", expires := 10 }, cache := none }
        0
        { tokenRoundTrip := Except.error Error.Timeout,
          parseTokenResp := fun s => Except.ok { raw := s },
          makeToken := fun _ _ => none,
          ser := fun t => t.value,
          de := fun _ => Except.ok none }
        (Except.error Error.Timeout)
        (fun s => some s)
        (fun _ s => Except.ok s)).1 = Except.error Error.Timeout ∧
    (Except.error Error.Timeout : Except Error Unit) ≠ Except.ok () := by
  exact ⟨rfl, fun h => nomatch h⟩

/-- C3 (amended): the connection-failure-means-success heuristic for
reboot is specific to the Antminer backend: `Antminer::reboot` returns
`Ok` (and invalidates its caches) exactly when the request failed, and
reports a completed response as `ApiCallFailed "Reboot failed"`; the
Whatsminer backend instead propagates any failure of the encrypted
reboot exchange verbatim. -/
theorem C3_reboot_semantics {si su mc st : Type}
    (s : AntminerSlots si su mc st) (e : Error) (resp : HttpResp Unit)
    (wst : WmState) (now : Int) (env : WmEnv)
    (pj : String → Option String)
    (dec : WhatsminerToken → String → Except Error String)
    (tok : WhatsminerToken)
    (htok : wst.token = some tok)
    (hexp : tok.is_expired now = false) :
    Antminer.reboot s (Except.error e) = (Except.ok (), Antminer.invalidate s) ∧
    Antminer.reboot s (Except.ok resp)
      = (Except.error (Error.ApiCallFailed "Reboot failed"), s) ∧
    (Whatsminer.reboot wst now env (Except.error e) pj dec).1
      = Except.error e := by
  refine ⟨rfl, rfl, ?_⟩
  simp [Whatsminer.reboot, Whatsminer.send_recv_enc, htok, hexp]

/-- Witness for C3's amended statement at concrete states. -/
theorem C3_reboot_semantics_witness :
    Antminer.reboot
        ({ sys_info := some 1, summary := some 2, miner_conf := some 3,
           stats := some 4 } : AntminerSlots Nat Nat Nat Nat)
        (Except.error Error.Timeout)
      = (Except.ok (), Antminer.invalidate
          { sys_info := some 1, summary := some 2, miner_conf := some 3,
            stats := some 4 }) ∧
    Antminer.reboot
        ({ sys_info := some 1, summary := some 2, miner_conf := some 3,
           stats := some 4 } : AntminerSlots Nat Nat Nat Nat)
        (Except.ok { status := 200, body := Except.ok () })
      = (Except.error (Error.ApiCallFailed "Reboot failed"),
         { sys_info := some 1, summary := some 2, miner_conf := some 3,
           stats := some 4 }) ∧
    (Whatsminer.reboot
        { ip := "host", password := some "pw",
          token := some { value := "tok", expires := 10 }, cache := none }
        0
        { tokenRoundTrip := Except.error Error.Timeout,
          parseTokenResp := fun s => Except.ok { raw := s },
          makeToken := fun _ _ => none,
          ser := fun t => t.value,
          de := fun _ => Except.ok none }
        (Except.error Error.Timeout)
        (fun s => some s)
        (fun _ s => Except.ok s)).1 = Except.error Error.Timeout :=
  C3_reboot_semantics
    { sys_info := some 1, summary := some 2, miner_conf := some 3,
      stats := some 4 }
    Error.Timeout { status := 200, body := Except.ok () }
    { ip := "host", password := some "pw",
      token := some { value := "tok", expires := 10 }, cache := none }
    0
    { tokenRoundTrip := Except.error Error.Timeout,
      parseTokenResp := fun s => Except.ok { raw := s },
      makeToken := fun _ _ => none,
      ser := fun t => t.value,
      de := fun _ => Except.ok none }
    (fun s => some s)
    (fun _ s => Except.ok s)
    { value := "tok", expires := 10 }
    rfl rfl

/-- C4: a populated cache slot answers without any network fetch and
returns its value unchanged, for Antminer's cgi accessors and
Whatsminer's `get_summary` alike; an empty slot issues exactly one
fetch, and when the fetch (and parse) succeeds the slot ends up
populated with the fetched value, which is returned. -/
theorem C4_cache_single_fetch {β σ : Type} (v : β) (w : σ)
    (fetch : Except Error (HttpResp β))
    (sfetch : Except Error String)
    (pst : String → Option WmStatus)
    (psum : String → Except Error σ) :
    antminerCgiGet (some v) fetch = (Except.ok v, some v, 0) ∧
    (antminerCgiGet (none : Option β) fetch).2.2 = 1 ∧
    (∀ resp b, fetch = Except.ok resp →
      statusIsSuccess resp.status = true →
      resp.body = Except.ok b →
      antminerCgiGet (none : Option β) fetch = (Except.ok b, some b, 1)) ∧
    Whatsminer.get_summary (some w) sfetch pst psum
      = (Except.ok w, some w, 0) ∧
    (Whatsminer.get_summary (none : Option σ) sfetch pst psum).2.2 = 1 ∧
    (∀ r u, sfetch = Except.ok r →
      pst r = none →
      psum r = Except.ok u →
      Whatsminer.get_summary (none : Option σ) sfetch pst psum
        = (Except.ok u, some u, 1)) := by
  refine ⟨rfl, ?_, ?_, rfl, ?_, ?_⟩
  · unfold antminerCgiGet
    cases fetch with
    | error e => rfl
    | ok resp =>
      simp only
      split
      · split <;> rfl
      · cases resp.body <;> rfl
  · intro resp b hf hs hb
    subst hf
    unfold antminerCgiGet
    simp [hs, hb]
  · unfold Whatsminer.get_summary
    cases sfetch with
    | error e => rfl
    | ok r =>
      simp only
      cases pst r with
      | some st => rfl
      | none => cases psum r <;> rfl
  · intro r u hf hp hu
    subst hf
    unfold Whatsminer.get_summary
    simp [hp, hu]

/-- Witness for C4 at concrete slots and fetch outcomes. -/
theorem C4_cache_single_fetch_witness :
    antminerCgiGet (some 5) (Except.ok { status := 200, body := Except.ok 7 })
      = (Except.ok 5, some 5, 0) ∧
    antminerCgiGet (none : Option Nat)
        (Except.ok { status := 200, body := Except.ok 7 })
      = (Except.ok 7, some 7, 1) ∧
    Whatsminer.get_summary (some 5) (Except.ok "s") (fun _ => none)
        (fun _ => Except.ok 7)
      = (Except.ok 5, some 5, 0) ∧
    Whatsminer.get_summary (none : Option Nat) (Except.ok "s")
        (fun _ => none) (fun _ => Except.ok 7)
      = (Except.ok 7, some 7, 1) := by
  have h := C4_cache_single_fetch (β := Nat) (σ := Nat) 5 5
    (Except.ok { status := 200, body := Except.ok 7 })
    (Except.ok "s") (fun _ => none) (fun _ => Except.ok 7)
  exact ⟨h.1,
    h.2.2.1 { status := 200, body := Except.ok 7 } 7 rfl rfl rfl,
    h.2.2.2.1,
    h.2.2.2.2.2 "s" 7 rfl rfl rfl⟩

/-- C5: a successful Antminer `set_pools` or `set_sleep` leaves the
summary, miner_conf and stats slots `Empty` and the sys_info slot exactly
as it was before the mutation. -/
theorem C5_invalidation_frame {si su mc st : Type}
    (s : AntminerSlots si su mc st)
    (confFetch : Except Error (HttpResp mc))
    (post post2 : Except Error (HttpResp Unit)) (b : Bool) :
    (∀ out, Antminer.set_pools s confFetch post = (Except.ok (), out) →
      out.summary = none ∧ out.miner_conf = none ∧ out.stats = none ∧
      out.sys_info = s.sys_info) ∧
    (∀ out, Antminer.set_sleep s b post2 = (Except.ok (), out) →
      out.summary = none ∧ out.miner_conf = none ∧ out.stats = none ∧
      out.sys_info = s.sys_info) := by
  constructor
  · intro out h
    unfold Antminer.set_pools at h
    split at h
    · exact absurd (congrArg Prod.fst h) (by simp)
    · rename_i heq
      cases post with
      | error e => simp at h
      | ok resp =>
        simp only at h
        split at h
        · rw [Prod.mk.injEq] at h
          rw [← h.2]
          exact ⟨rfl, rfl, rfl, rfl⟩
        · simp at h
  · intro out h
    unfold Antminer.set_sleep at h
    cases post2 with
    | error e => simp at h
    | ok resp =>
      simp only at h
      split at h
      · rw [Prod.mk.injEq] at h
        rw [← h.2]
        exact ⟨rfl, rfl, rfl, rfl⟩
      · simp at h

/-- Witness for C5 at a fully populated slot state and successful posts. -/
theorem C5_invalidation_frame_witness :
    (Antminer.set_pools
        ({ sys_info := some 1, summary := some 2, miner_conf := some 3,
           stats := some 4 } : AntminerSlots Nat Nat Nat Nat)
        (Except.ok { status := 200, body := Except.ok 3 })
        (Except.ok { status := 200, body := Except.ok () })).2.summary
      = none ∧
    (Antminer.set_sleep
        ({ sys_info := some 1, summary := some 2, miner_conf := some 3,
           stats := some 4 } : AntminerSlots Nat Nat Nat Nat)
        true
        (Except.ok { status := 200, body := Except.ok () })).2.sys_info
      = some 1 := by
  have h := C5_invalidation_frame
    ({ sys_info := some 1, summary := some 2, miner_conf := some 3,
       stats := some 4 } : AntminerSlots Nat Nat Nat Nat)
    (Except.ok { status := 200, body := Except.ok 3 })
    (Except.ok { status := 200, body := Except.ok () })
    (Except.ok { status := 200, body := Except.ok () })
    true
  exact ⟨(h.1 _ rfl).1, (h.2 _ rfl).2.2.2⟩

/-- C6: with an unexpired token an encrypted call performs zero handshake
round trips; with an expired token (and the refresh succeeding) exactly
one handshake happens before the command, the handle holds the fresh
token, and the shared host-keyed store holds its serialization with the
new expiry. -/
theorem C6_token_refresh (st : WmState) (now : Int) (env : WmEnv)
    (encResp : Except Error String)
    (pj : String → Option String)
    (dec : WhatsminerToken → String → Except Error String)
    (tok : WhatsminerToken)
    (htok : st.token = some tok) :
    (tok.is_expired now = false →
      (Whatsminer.send_recv_enc st now env encResp pj dec).2.2 = 0 ∧
      (Whatsminer.send_recv_enc st now env encResp pj dec).2.1.token
        = some tok) ∧
    (∀ p raw tr newTok c,
      tok.is_expired now = true →
      st.password = some p →
      env.tokenRoundTrip = Except.ok raw →
      env.parseTokenResp raw = Except.ok tr →
      env.makeToken tr p = some newTok →
      st.cache = some c →
      (Whatsminer.send_recv_enc st now env encResp pj dec).2.2 = 1 ∧
      (Whatsminer.send_recv_enc st now env encResp pj dec).2.1.token
        = some newTok ∧
      ∃ c2,
        (Whatsminer.send_recv_enc st now env encResp pj dec).2.1.cache
          = some c2 ∧
        cacheGet c2 st.ip
          = some { token := env.ser newTok,
                   token_expires := newTok.expires }) := by
  constructor
  · intro hexp
    simp [Whatsminer.send_recv_enc, htok, hexp]
  · intro p raw tr newTok c hexp hp htrip hparse hmk hcache
    simp [Whatsminer.send_recv_enc, htok, hexp, Whatsminer.refresh_token,
      hp, htrip, hparse, hmk, hcache]
    simp [cacheGet, cacheInsert]

/-- Witness for C6: one unexpired-token call and one expired-token call
at concrete states. -/
theorem C6_token_refresh_witness :
    ((Whatsminer.send_recv_enc
        { ip := "h", password := some "p",
          token := some { value := "t", expires := 10 }, cache := some [] }
        0
        { tokenRoundTrip := Except.ok "raw",
          parseTokenResp := fun s => Except.ok { raw := s },
          makeToken := fun _ _ => some { value := "t2", expires := 99 },
          ser := fun t => t.value,
          de := fun _ => Except.ok none }
        (Except.ok "r") (fun s => some s) (fun _ s => Except.ok s)).2.2
      = 0) ∧
    ((Whatsminer.send_recv_enc
        { ip := "h", password := some "p",
          token := some { value := "t", expires := 10 }, cache := some [] }
        20
        { tokenRoundTrip := Except.ok "raw",
          parseTokenResp := fun s => Except.ok { raw := s },
          makeToken := fun _ _ => some { value := "t2", expires := 99 },
          ser := fun t => t.value,
          de := fun _ => Except.ok none }
        (Except.ok "r") (fun s => some s) (fun _ s => Except.ok s)).2.2
      = 1) := by
  have h1 := C6_token_refresh
    { ip := "h", password := some "p",
      token := some { value := "t", expires := 10 }, cache := some [] }
    0
    { tokenRoundTrip := Except.ok "raw",
      parseTokenResp := fun s => Except.ok { raw := s },
      makeToken := fun _ _ => some { value := "t2", expires := 99 },
      ser := fun t => t.value,
      de := fun _ => Except.ok none }
    (Except.ok "r") (fun s => some s) (fun _ s => Except.ok s)
    { value := "t", expires := 10 } rfl
  have h2 := C6_token_refresh
    { ip := "h", password := some "p",
      token := some { value := "t", expires := 10 }, cache := some [] }
    20
    { tokenRoundTrip := Except.ok "raw",
      parseTokenResp := fun s => Except.ok { raw := s },
      makeToken := fun _ _ => some { value := "t2", expires := 99 },
      ser := fun t => t.value,
      de := fun _ => Except.ok none }
    (Except.ok "r") (fun s => some s) (fun _ s => Except.ok s)
    { value := "t", expires := 10 } rfl
  exact ⟨(h1.1 (by decide)).1,
    (h2.2 "p" "raw" { raw := "raw" } { value := "t2", expires := 99 } []
      (by decide) rfl rfl rfl rfl rfl).1⟩

/-- C7: the host-keyed token store supplies a stored token only when its
expiry is strictly later than now, in which case it is adopted with zero
handshake round trips; an expired or absent entry sends the handle
through `refresh_token`, whose successful result performs the one
handshake and replaces the store entry for that host. -/
theorem C7_token_store (st : WmState) (now : Int) (env : WmEnv) :
    (∀ c item t,
      st.token = none →
      st.cache = some c →
      cacheGet c st.ip = some item →
      now < item.token_expires →
      env.de item.token = Except.ok t →
      Whatsminer.token_cached st now env
        = (Except.ok (), { st with token := t }, 0)) ∧
    (∀ c item,
      st.token = none →
      st.cache = some c →
      cacheGet c st.ip = some item →
      ¬ now < item.token_expires →
      Whatsminer.token_cached st now env
        = Whatsminer.refresh_token st env) ∧
    (∀ c,
      st.token = none →
      st.cache = some c →
      cacheGet c st.ip = none →
      Whatsminer.token_cached st now env
        = Whatsminer.refresh_token st env) ∧
    (∀ p raw tr newTok c,
      st.password = some p →
      env.tokenRoundTrip = Except.ok raw →
      env.parseTokenResp raw = Except.ok tr →
      env.makeToken tr p = some newTok →
      st.cache = some c →
      (Whatsminer.refresh_token st env).2.2 = 1 ∧
      ∃ c2, (Whatsminer.refresh_token st env).2.1.cache = some c2 ∧
        cacheGet c2 st.ip
          = some { token := env.ser newTok,
                   token_expires := newTok.expires }) := by
  refine ⟨?_, ?_, ?_, ?_⟩
  · intro c item t htok hcache hget hlt hde
    simp [Whatsminer.token_cached, htok, hcache, hget, hlt, hde]
  · intro c item htok hcache hget hlt
    simp [Whatsminer.token_cached, htok, hcache, hget, hlt]
  · intro c htok hcache hget
    simp [Whatsminer.token_cached, htok, hcache, hget]
  · intro p raw tr newTok c hp htrip hparse hmk hcache
    simp [Whatsminer.refresh_token, hp, htrip, hparse, hmk, hcache]
    simp [cacheGet, cacheInsert]

/-- Witness for C7: a fresh stored entry is adopted without a handshake;
a stale one leads to a refresh that updates the store. -/
theorem C7_token_store_witness :
    (Whatsminer.token_cached
        { ip := "h", password := some "p", token := none,
          cache := some [("h", { token := "stored", token_expires := 50 })] }
        0
        { tokenRoundTrip := Except.ok "raw",
          parseTokenResp := fun s => Except.ok { raw := s },
          makeToken := fun _ _ => some { value := "t2", expires := 99 },
          ser := fun t => t.value,
          de := fun _ => Except.ok (some { value := "adopted", expires := 50 }) }
      = (Except.ok (),
         { ip := "h", password := some "p",
           token := some { value := "adopted", expires := 50 },
           cache := some [("h", { token := "stored", token_expires := 50 })] },
         0)) ∧
    (Whatsminer.token_cached
        { ip := "h", password := some "p", token := none,
          cache := some [("h", { token := "stored", token_expires := 50 })] }
        60
        { tokenRoundTrip := Except.ok "raw",
          parseTokenResp := fun s => Except.ok { raw := s },
          makeToken := fun _ _ => some { value := "t2", expires := 99 },
          ser := fun t => t.value,
          de := fun _ => Except.ok (some { value := "adopted", expires := 50 }) }
      = Whatsminer.refresh_token
          { ip := "h", password := some "p", token := none,
            cache := some [("h", { token := "stored", token_expires := 50 })] }
          { tokenRoundTrip := Except.ok "raw",
            parseTokenResp := fun s => Except.ok { raw := s },
            makeToken := fun _ _ => some { value := "t2", expires := 99 },
            ser := fun t => t.value,
            de := fun _ =>
              Except.ok (some { value := "adopted", expires := 50 }) }) := by
  have h1 := C7_token_store
    { ip := "h", password := some "p", token := none,
      cache := some [("h", { token := "stored", token_expires := 50 })] }
    0
    { tokenRoundTrip := Except.ok "raw",
      parseTokenResp := fun s => Except.ok { raw := s },
      makeToken := fun _ _ => some { value := "t2", expires := 99 },
      ser := fun t => t.value,
      de := fun _ => Except.ok (some { value := "adopted", expires := 50 }) }
  have h2 := C7_token_store
    { ip := "h", password := some "p", token := none,
      cache := some [("h", { token := "stored", token_expires := 50 })] }
    60
    { tokenRoundTrip := Except.ok "raw",
      parseTokenResp := fun s => Except.ok { raw := s },
      makeToken := fun _ _ => some { value := "t2", expires := 99 },
      ser := fun t => t.value,
      de := fun _ => Except.ok (some { value := "adopted", expires := 50 }) }
  exact ⟨h1.1 [("h", { token := "stored", token_expires := 50 })]
      { token := "stored", token_expires := 50 }
      (some { value := "adopted", expires := 50 })
      rfl rfl rfl (by decide) rfl,
    h2.2.1 [("h", { token := "stored", token_expires := 50 })]
      { token := "stored", token_expires := 50 }
      rfl rfl rfl (by decide)⟩

/-- Any two sufficient iteration budgets give the chain-break loop the
same result, so the budgeted loop agrees with the unbounded `while let`
of the source: a match consumes at least 30 characters, hence a budget of
the text length never runs out first. -/
theorem collectChainBreakAux_budget :
    ∀ n m l acc, l.length ≤ n → l.length ≤ m →
      collectChainBreakAux n l acc = collectChainBreakAux m l acc := by
  intro n
  induction n with
  | zero =>
    intro m l acc hn _
    have hl : l = [] := List.length_eq_zero.mp (Nat.le_zero.mp hn)
    subst hl
    cases m <;> simp [collectChainBreakAux, chainBreakFind]
  | succ n ih =>
    intro m l acc hn hm
    cases m with
    | zero =>
      have hl : l = [] := List.length_eq_zero.mp (Nat.le_zero.mp hm)
      subst hl
      simp [collectChainBreakAux, chainBreakFind]
    | succ m =>
      simp only [collectChainBreakAux]
      cases hfind : chainBreakFind l with
      | none => rfl
      | some p =>
        obtain ⟨s, d⟩ := p
        have hlen : (l.drop (s + 30)).length ≤ l.length - 1 := by
          simp only [List.length_drop]
          omega
        exact ih m (l.drop (s + 30)) (insertErr (renderChainBreak d) acc)
          (by omega) (by omega)

/-- Inserting into the classification set preserves distinctness. -/
theorem insertErr_nodup (e : MinerError) (s : List MinerError)
    (h : s.Nodup) : (insertErr e s).Nodup := by
  unfold insertErr
  split
  · exact h
  · exact List.Nodup.cons (by assumption) h

/-- A fold whose step preserves distinctness of the accumulated set
preserves it overall. -/
theorem foldl_nodup {α : Type} (g : List MinerError → α → List MinerError)
    (hg : ∀ acc a, acc.Nodup → (g acc a).Nodup) :
    ∀ (xs : List α) (acc : List MinerError), acc.Nodup →
      (xs.foldl g acc).Nodup := by
  intro xs
  induction xs with
  | nil => intro acc h; exact h
  | cons x xs ih => intro acc h; exact ih (g acc x) (hg acc x h)

/-- The chain-break match loop only ever grows the set through
`insertErr`, so it preserves distinctness. -/
theorem collectChainBreakAux_nodup :
    ∀ (fuel : Nat) (l : List Char) (acc : List MinerError), acc.Nodup →
      (collectChainBreakAux fuel l acc).Nodup := by
  intro fuel
  induction fuel with
  | zero => intro l acc h; exact h
  | succ fuel ih =>
    intro l acc h
    simp only [collectChainBreakAux]
    cases hfind : chainBreakFind l with
    | none => exact h
    | some p =>
      obtain ⟨s, d⟩ := p
      exact ih _ _ (insertErr_nodup _ _ h)

/-- C8: on the log `"noise\nBOOT_MARKER\nchain#2 - Chain break detected\n"`
— with the VNISH boot marker `INFO: Initializing PSU` and a noise line
that itself matches the chain-break rule — classification windowed at the
last marker yields exactly the one error
`Chain 2 - Chain break detected` of category HashBoard, rendered from the
rule's template; the matching noise line before the marker contributes
nothing. -/
theorem C8_windowed_classification :
    Vnish.get_errors
        ("chain#7 - Chain break detected\nINFO: Initializing PSU\nchain#2 - Chain break detected\n".toList)
      = [{ msg := "Chain 2 - Chain break detected",
           error_type := ErrorType.HashBoard }] ∧
    (chainBreakFind ("chain#7 - Chain break detected".toList)).isSome
      = true := by
  constructor
  · decide
  · decide

/-- C9: a classification pass never returns two errors with the same
(message, category): both the Antminer pass (structural checks plus one
match per rule, over any log, stats and rule table) and the Vnish
chain-break pass produce duplicate-free sets, and a log repeating the
same matching line twice after the boot marker still yields exactly one
entry for that pair. -/
theorem C9_no_duplicate_errors (log : List Char) (stats : Option AmStats)
    (rules : List (List Char → Option MinerError)) (l : List Char) :
    (Antminer.get_errors log stats rules).Nodup ∧
    (Vnish.get_errors l).Nodup ∧
    Vnish.get_errors
        ("INFO: Initializing PSU\nchain#2 - Chain break detected\nchain#2 - Chain break detected\n".toList)
      = [{ msg := "Chain 2 - Chain break detected",
           error_type := ErrorType.HashBoard }] := by
  refine ⟨?_, ?_, by decide⟩
  · unfold Antminer.get_errors
    apply foldl_nodup
    · intro acc a h
      cases a ((log.drop ((markerLastStart antminerBootMarker log).getD 0))) with
      | some m => exact insertErr_nodup _ _ h
      | none => exact h
    · cases stats with
      | none => exact List.nodup_nil
      | some stat =>
        apply foldl_nodup
        · intro acc c h
          dsimp only
          split
          · exact insertErr_nodup _ _ h
          · exact h
        · dsimp only
          split
          · exact insertErr_nodup _ _ List.nodup_nil
          · exact List.nodup_nil
  · unfold Vnish.get_errors collectChainBreak
    exact collectChainBreakAux_nodup _ _ _ List.nodup_nil

/-- C10: Whatsminer `set_sleep(true)` maps a `Timeout` of the encrypted
`power_off` exchange to `Ok` and leaves the summary slot untouched (no
invalidation); any other error of `set_sleep(true)`, and every error of
`set_sleep(false)`, is propagated unchanged. -/
theorem C10_set_sleep_timeout {σ : Type} (slot : Option σ)
    (parseStat : String → Except Error WmStatus) :
    Whatsminer.set_sleep true slot (Except.error Error.Timeout) parseStat
      = (Except.ok (), slot) ∧
    (∀ e, e ≠ Error.Timeout →
      Whatsminer.set_sleep true slot (Except.error e) parseStat
        = (Except.error e, slot)) ∧
    (∀ e, Whatsminer.set_sleep false slot (Except.error e) parseStat
        = (Except.error e, slot)) := by
  refine ⟨rfl, ?_, ?_⟩
  · intro e he
    cases e <;> first | exact absurd rfl he | rfl
  · intro e
    cases e <;> rfl

/-- Witness for C10 at a populated summary slot and concrete errors. -/
theorem C10_set_sleep_timeout_witness :
    Whatsminer.set_sleep true (some 5) (Except.error Error.Timeout)
        (fun _ => Except.error Error.EncodingError)
      = (Except.ok (), some 5) ∧
    Whatsminer.set_sleep true (some 5) (Except.error Error.Unauthorized)
        (fun _ => Except.error Error.EncodingError)
      = (Except.error Error.Unauthorized, some 5) ∧
    Whatsminer.set_sleep false (some 5) (Except.error Error.Timeout)
        (fun _ => Except.error Error.EncodingError)
      = (Except.error Error.Timeout, some 5) := by
  have h := C10_set_sleep_timeout (some 5)
    (fun _ => Except.error Error.EncodingError)
  exact ⟨h.1, h.2.1 Error.Unauthorized (by decide), h.2.2 Error.Timeout⟩

end Libminer
